import Mathlib

/-!
Shallow embedding of the CoinCompass attribution engine and walk-forward
validator (`coincompass/analysis/price_driver.py`, `technical.py`,
`backtesting.py`).  Floats are modelled as rationals; pandas NaN cells are
`Option` values; Python exceptions are modelled with `Except`.  Korean UI
strings are carried verbatim where they are data; float formatting
(`:.1f`, `:+.2f`) is abstracted by `toString` since no verified property
inspects the rendered digits.
-/

namespace CoinCompass

/-- Python's builtin `abs` on a float, written so that it evaluates by kernel
reduction (Mathlib's lattice `|·|` on `ℚ` does not). -/
def pyabs (x : ℚ) : ℚ := if x < 0 then -x else x

/-- Python's builtin two-argument `min`. -/
def pymin (a b : ℚ) : ℚ := if a ≤ b then a else b

/-- Python's builtin two-argument `max`. -/
def pymax (a b : ℚ) : ℚ := if b ≤ a then a else b

/-- `dataclass PriceMovementFactor` of `price_driver.py`. -/
structure PriceMovementFactor where
  factor_type : String
  impact_score : ℚ
  confidence : ℚ
  description : String
  technical_reason : String
deriving Repr, DecidableEq

/-- `dataclass PriceMovementAnalysis` of `price_driver.py`. -/
structure PriceMovementAnalysis where
  price_change_percent : ℚ
  movement_type : String
  primary_factors : List PriceMovementFactor
  summary : String
  recommendation : String
  confidence : ℚ
deriving Repr, DecidableEq

/-- `self.movement_thresholds` dict built in `PriceDriverAnalyzer.__init__`. -/
structure MovementThresholds where
  crash : ℚ
  dump : ℚ
  normal_down : ℚ
  normal_up : ℚ
  pump : ℚ
  surge : ℚ

def movement_thresholds : MovementThresholds :=
  { crash := -15, dump := -8, normal_down := -3, normal_up := 3, pump := 8, surge := 15 }

/-- `PriceDriverAnalyzer._classify_movement` (price_driver.py lines 128-143). -/
def classify_movement (price_change : ℚ) : String :=
  if price_change ≤ movement_thresholds.crash then "crash"
  else if price_change ≤ movement_thresholds.dump then "dump"
  else if price_change ≤ movement_thresholds.normal_down then "normal_down"
  else if price_change ≥ movement_thresholds.surge then "surge"
  else if price_change ≥ movement_thresholds.pump then "pump"
  else if price_change ≥ movement_thresholds.normal_up then "normal_up"
  else "stable"

/-- `PriceDriverValidator._classify_movement` (backtesting.py lines 281-296),
the validator's copy with literal thresholds. -/
def classify_movement_validator (change_percent : ℚ) : String :=
  if change_percent ≤ -15 then "crash"
  else if change_percent ≤ -8 then "dump"
  else if change_percent ≤ -3 then "normal_down"
  else if change_percent ≥ 15 then "surge"
  else if change_percent ≥ 8 then "pump"
  else if change_percent ≥ 3 then "normal_up"
  else "stable"

/-- The direction string computed twice inside
`PriceDriverValidator._evaluate_prediction_accuracy`:
`'up' if change > 0 else 'down' if change < 0 else 'stable'`. -/
def direction_of (change : ℚ) : String :=
  if change > 0 then "up" else if change < 0 then "down" else "stable"

/-- `PriceDriverValidator._evaluate_prediction_accuracy` (backtesting.py 298-314). -/
def evaluate_prediction_accuracy (actual_change : ℚ) (actual_movement : String)
    (predicted_change : ℚ) (predicted_movement : String) : Bool :=
  let direction_correct := direction_of actual_change == direction_of predicted_change
  let intensity_correct := actual_movement == predicted_movement
  let error_acceptable := decide (pyabs (actual_change - predicted_change) ≤ 2)
  direction_correct && (intensity_correct || error_acceptable)

/-- `PriceDriverAnalyzer._analyze_structural_factors` (price_driver.py 340-381). -/
def analyze_structural_factors (price_change : ℚ) (movement_type : String) :
    Option PriceMovementFactor :=
  if movement_type = "crash" ∨ movement_type = "dump" then
    some { factor_type := "structural", impact_score := -(6/10), confidence := 7/10,
           description := "대량 매도나 청산, 또는 악재 뉴스로 인한 급락이 발생했을 가능성이 높아요",
           technical_reason := "급락 패턴: " ++ movement_type }
  else if movement_type = "surge" ∨ movement_type = "pump" then
    some { factor_type := "structural", impact_score := 6/10, confidence := 7/10,
           description := "대량 매수나 호재 뉴스, 또는 기관 투자 유입으로 인한 급등이 발생했을 가능성이 높아요",
           technical_reason := "급등 패턴: " ++ movement_type }
  else if pyabs price_change > 2 then
    if price_change > 0 then
      some { factor_type := "structural", impact_score := 3/10, confidence := 4/10,
             description := "평소보다 많은 매수 주문이 들어와서 가격이 상승했어요",
             technical_reason := "매수 우세" }
    else
      some { factor_type := "structural", impact_score := -(3/10), confidence := 4/10,
             description := "평소보다 많은 매도 주문이 들어와서 가격이 하락했어요",
             technical_reason := "매도 우세" }
  else none

/-- The two fields of `MarketSentiment` (core/models.py) that
`_analyze_sentiment_factors` reads.  `none` models a Python `None` field (the
sentiment feed returned nothing for it). -/
structure MarketSentiment where
  fear_greed_index : Option ℚ := none
  social_sentiment : Option ℚ := none
deriving Repr, DecidableEq

/-- Python truthiness of an optional float: `None` and `0.0` are falsy. -/
def truthy (o : Option ℚ) : Bool :=
  match o with
  | none => false
  | some x => x ≠ 0

/-- Rendering of an optional number inside an f-string (`None` prints as
"None"); digit formatting is abstracted by `toString`. -/
def py_str_opt (o : Option ℚ) : String :=
  match o with
  | none => "None"
  | some x => toString x

/-- The `(impact_score, description, confidence)` triple accumulated by the
fear-greed banding block of `_analyze_sentiment_factors` (price_driver.py
218-248); the initial values are `(0.0, "", 0.5)`. -/
def sentiment_banded (sentiment : MarketSentiment) (price_change : ℚ) :
    ℚ × String × ℚ :=
  if truthy sentiment.fear_greed_index then
      let fg_index := sentiment.fear_greed_index.getD 0
      if fg_index > 75 then
        if price_change > 0 then
          (7/10, "시장이 극도로 탐욕적이어서 FOMO(놓칠까봐 하는 두려움) 매수가 몰리고 있어요", 8/10)
        else
          (-(8/10), "극탐욕 상태에서 갑작스런 차익실현이 몰리면서 급락하고 있어요", 8/10)
      else if fg_index < 25 then
        if price_change < 0 then
          (-(7/10), "시장이 극도로 공포스러워서 패닉 매도가 이어지고 있어요", 8/10)
        else
          (8/10, "극공포 상태에서 용감한 저점 매수세가 유입되고 있어요", 8/10)
      else if fg_index > 60 then
        (if price_change > 0 then (4/10 : ℚ) else -(3/10),
         "시장 심리가 탐욕적이어서 강세 분위기가 형성되고 있어요", 6/10)
      else if fg_index < 40 then
        (if price_change < 0 then (-(4/10) : ℚ) else 3/10,
         "시장 심리가 공포스러워서 약세 분위기가 지배적이에요", 6/10)
      else (0, "", 1/2)
  else (0, "", 1/2)

/-- The social-sentiment suffix appended to the description
(price_driver.py 250-255). -/
def social_suffix (sentiment : MarketSentiment) : String :=
  if truthy sentiment.social_sentiment then
    let s := sentiment.social_sentiment.getD 0
    if s > 1/5 then " 소셜미디어에서도 긍정적인 반응이 많아요"
    else if s < -(1/5) then " 소셜미디어에서도 부정적인 반응이 많아요"
    else ""
  else ""

/-- `PriceDriverAnalyzer._analyze_sentiment_factors` (price_driver.py 209-269).
The network call `get_comprehensive_sentiment` is an external feed; its result
is the `sentiment` argument.  A feed exception is equivalent to an all-`none`
result (both leave `impact_score = 0`, so the analyzer returns `None`). -/
def analyze_sentiment_factors (sentiment : MarketSentiment) (price_change : ℚ) :
    Option PriceMovementFactor :=
  let banded := sentiment_banded sentiment price_change
  let impact_score := banded.1
  let confidence := banded.2.2
  let description := banded.2.1 ++ social_suffix sentiment
  if pyabs impact_score > 1/10 then
    some { factor_type := "sentiment", impact_score := impact_score,
           confidence := confidence, description := description,
           technical_reason := "공포탐욕지수: " ++ py_str_opt sentiment.fear_greed_index }
  else none

/-- One named-signal description block of `_analyze_macro_factors`
(price_driver.py 287-313): a description is produced when the named signal
is present with `|signal| > 0.3`, the text depending on its sign. -/
def macro_signal_desc (signals : List (String × ℚ)) (key pos_text neg_text : String) :
    List String :=
  match signals.lookup key with
  | some v => if pyabs v > 3/10 then [if v > 0 then pos_text else neg_text] else []
  | none => []

/-- The three description blocks of `_analyze_macro_factors` in source order
(tech-equity momentum, inverse dollar correlation, risk sentiment). -/
def macro_descriptions (signals : List (String × ℚ)) : List String :=
  macro_signal_desc signals "tech_stock_momentum"
    "나스닥 등 기술주가 강세를 보이면서 위험자산 선호 심리가 높아졌어요"
    "나스닥 등 기술주가 약세를 보이면서 위험자산 회피 심리가 강해졌어요"
  ++ macro_signal_desc signals "dollar_inverse_correlation"
    "달러 약세로 대안 투자처로서 암호화폐 매력이 증가했어요"
    "달러 강세로 상대적으로 암호화폐 매력이 감소했어요"
  ++ macro_signal_desc signals "risk_sentiment"
    "VIX 하락으로 시장 불안이 완화되어 위험자산 투자가 늘었어요"
    "VIX 상승으로 시장 불안이 커져 안전자산으로 자금이 이동했어요"

/-- The description assembly of `_analyze_macro_factors`
(price_driver.py 315-324). -/
def macro_final_desc (descriptions : List String) (impact_score : ℚ) : String :=
  match descriptions with
  | [] => if impact_score > 0 then "전반적인 거시경제 환경이 암호화폐에 우호적으로 변화했어요"
          else "전반적인 거시경제 환경이 암호화폐에 부정적으로 변화했어요"
  | d :: rest =>
    match rest with
    | [] => d
    | d2 :: _ => d ++ " 또한 " ++ d2

/-- `PriceDriverAnalyzer._analyze_macro_factors` (price_driver.py 271-338).
The `signals` dict produced by the macro feed is an association list with
distinct keys (Python dict iteration order = insertion order).  The
confidence starts at 0.5 and gains 0.2 in exactly the branches that append a
description, so it equals `0.5 + 0.2 × (number of descriptions)`. -/
def analyze_macro_factors (signals : List (String × ℚ)) (price_change : ℚ) :
    Option PriceMovementFactor :=
  if signals = [] then none
  else
    let total_signal := (signals.map Prod.snd).sum / (signals.length : ℚ)
    let impact_score := total_signal * 2
    let descriptions := macro_descriptions signals
    let confidence : ℚ := 1/2 + (descriptions.length : ℚ) * (1/5)
    let final_desc := macro_final_desc descriptions impact_score
    if pyabs impact_score > 1/10 then
      some { factor_type := "macro", impact_score := pymax (-1) (pymin 1 impact_score),
             confidence := pymin 1 confidence, description := final_desc,
             technical_reason := "거시경제 신호: " ++ toString total_signal }
    else none

/-! ### TechnicalAnalyzer (technical.py)

Price series are NaN-free lists of rationals; derived pandas series may hold
NaN cells, modelled as `Option ℚ` entries (`none` = NaN). -/

/-- `prices.diff()` without its leading NaN: `delta_i = p_i - p_(i-1)` for `i ≥ 1`. -/
def deltas (prices : List ℚ) : List ℚ :=
  List.zipWith (fun a b => b - a) prices prices.tail

/-- `delta.where(delta > 0, 0)` from `calculate_rsi`: the leading NaN of
`diff()` compares `NaN > 0 = False` and is replaced by 0, so the gain series
is NaN-free. -/
def gain_series (prices : List ℚ) : List ℚ :=
  match prices with
  | [] => []
  | _ :: _ => 0 :: (deltas prices).map (fun d => if d > 0 then d else 0)

/-- `(-delta.where(delta < 0, 0))` from `calculate_rsi` (NaN-free, see
`gain_series`). -/
def loss_series (prices : List ℚ) : List ℚ :=
  match prices with
  | [] => []
  | _ :: _ => 0 :: (deltas prices).map (fun d => if d < 0 then -d else 0)

/-- `series.rolling(window=w).mean()` on a NaN-free series: cell `i` holds the
mean of the `w` entries ending at `i`, NaN before `w` entries exist. -/
def rolling_mean (w : ℕ) (l : List ℚ) : List (Option ℚ) :=
  (List.range l.length).map (fun i =>
    if w ≤ i + 1 then some ((((l.drop (i + 1 - w)).take w).sum) / (w : ℚ)) else none)

/-- `series.rolling(window=w).std()` squared: the sample variance
(pandas `ddof=1`) of the `w` entries ending at each cell.  The standard
deviation itself is irrational in general, so the embedding carries `σ²` and
every comparison against a `σ`-derived bound is expressed exactly on squares. -/
def rolling_var (w : ℕ) (l : List ℚ) : List (Option ℚ) :=
  (List.range l.length).map (fun i =>
    if w ≤ i + 1 then
      let win := (l.drop (i + 1 - w)).take w
      let m := win.sum / (w : ℚ)
      some ((win.map (fun x => (x - m) ^ 2)).sum / ((w : ℚ) - 1))
    else none)

/-- One cell of `rsi = 100 - (100 / (1 + rs))` with `rs = gain/loss` under
IEEE float semantics: `0/0` is NaN (cell absent), `positive/0` is `+inf`
giving rsi 100, otherwise the exact formula. -/
def rsi_point (g l : ℚ) : Option ℚ :=
  if l = 0 then (if g = 0 then none else some 100)
  else some (100 - 100 / (1 + g / l))

/-- `TechnicalAnalyzer.calculate_rsi` (technical.py 21-29). -/
def calculate_rsi (prices : List ℚ) (period : ℕ := 14) : List (Option ℚ) :=
  List.zipWith (fun og ol =>
      match og, ol with
      | some g, some l => rsi_point g l
      | _, _ => none)
    (rolling_mean period (gain_series prices))
    (rolling_mean period (loss_series prices))

/-- `TechnicalAnalyzer.calculate_sma` (technical.py 31-33). -/
def calculate_sma (prices : List ℚ) (period : ℕ := 20) : List (Option ℚ) :=
  rolling_mean period prices

/-- `TechnicalAnalyzer.calculate_ema` = `prices.ewm(span=period).mean()` with
pandas defaults (`adjust=True`): `y_t = num_t / den_t` where
`num_t = x_t + (1-α)·num_(t-1)`, `den_t = 1 + (1-α)·den_(t-1)`,
`α = 2/(span+1)`.  NaN-free for NaN-free input. -/
def ewm_mean (span : ℚ) (l : List ℚ) : List ℚ :=
  let α : ℚ := 2 / (span + 1)
  (l.foldl
    (fun (acc : ℚ × ℚ × List ℚ) x =>
      let num := x + (1 - α) * acc.1
      let den := 1 + (1 - α) * acc.2.1
      (num, den, acc.2.2 ++ [num / den]))
    (0, 0, [])).2.2

/-- Result dict of `TechnicalAnalyzer.calculate_macd` (technical.py 39-52). -/
structure MacdData where
  macd : List ℚ
  signal : List ℚ
  histogram : List ℚ
deriving Repr, DecidableEq

/-- `TechnicalAnalyzer.calculate_macd` (technical.py 39-52). -/
def calculate_macd (prices : List ℚ) (fast : ℚ := 12) (slow : ℚ := 26)
    (signal : ℚ := 9) : MacdData :=
  let ema_fast := ewm_mean fast prices
  let ema_slow := ewm_mean slow prices
  let macd_line := List.zipWith (fun a b => a - b) ema_fast ema_slow
  let signal_line := ewm_mean signal macd_line
  { macd := macd_line, signal := signal_line,
    histogram := List.zipWith (fun a b => a - b) macd_line signal_line }

/-- `TechnicalIndicators` (core/models.py), restricted to the fields the
analysis reads.  The Bollinger bands `upper/lower = sma ± 2σ` are carried as
the pair (center `boll_middle`, variance `boll_var`); see `rolling_var`. -/
structure TechnicalIndicators where
  rsi : Option ℚ := none
  macd : Option ℚ := none
  macd_signal : Option ℚ := none
  sma_short : Option ℚ := none
  sma_long : Option ℚ := none
  boll_middle : Option ℚ := none
  boll_var : Option ℚ := none
deriving Repr, DecidableEq

/-- `safe_get_latest` inside `analyze_price_data`: last non-NaN cell
(`series.dropna().iloc[-1]`), `None` when every cell is NaN. -/
def safe_get_latest (l : List (Option ℚ)) : Option ℚ :=
  (l.filterMap id).getLast?

/-- `TechnicalAnalyzer.analyze_price_data` (technical.py 68-111).  Fewer than
26 points yields the empty `TechnicalIndicators()`.  The interior `try` never
fires in this model: element-wise pandas arithmetic produces inf/NaN instead
of raising. -/
def analyze_price_data (price_data : List ℚ) : TechnicalIndicators :=
  if price_data.length < 26 then {}
  else
    let macd_data := calculate_macd price_data
    { rsi := safe_get_latest (calculate_rsi price_data)
      macd := safe_get_latest (macd_data.macd.map some)
      macd_signal := safe_get_latest (macd_data.signal.map some)
      sma_short := safe_get_latest (calculate_sma price_data 5)
      sma_long := safe_get_latest (calculate_sma price_data 20)
      boll_middle := safe_get_latest (calculate_sma price_data 20)
      boll_var := safe_get_latest (rolling_var 20 price_data) }

/-- `current_price > bollinger_upper`, i.e. `current - sma > 2σ`, expressed
exactly on squares (`σ ≥ 0`). -/
def above_upper_band (current sma var : ℚ) : Bool :=
  current - sma > 0 && (current - sma) ^ 2 > 4 * var

/-- `current_price < bollinger_lower`, i.e. `sma - current > 2σ`. -/
def below_lower_band (current sma var : ℚ) : Bool :=
  sma - current > 0 && (sma - current) ^ 2 > 4 * var

/-- `TradingSignal` (core/models.py), restricted to the fields the analysis
reads. -/
structure TradingSignal where
  signal : String
  confidence : ℚ
  indicators_used : List String
  reason : String := ""
deriving Repr, DecidableEq

/-- One appended (signal, confidence, reason) triple of
`generate_trading_signal`; the source appends to three parallel lists in
lockstep. -/
abbrev SignalEntry := String × ℚ × String

/-- The RSI block of `generate_trading_signal` (technical.py 129-138). -/
def rsi_entries (ind : TechnicalIndicators) : List SignalEntry :=
  match ind.rsi with
  | some r =>
    if r < 30 then [("BUY", 8/10, "RSI 과매도 (" ++ toString r ++ ")")]
    else if r > 70 then [("SELL", 8/10, "RSI 과매수 (" ++ toString r ++ ")")]
    else []
  | none => []

/-- The MACD cross block of `generate_trading_signal` (technical.py 140-167).
The recomputed `macd_data` lists are NaN-free (`ewm`), so the `pd.isna`
guards never fire; the `iloc[-2]` accesses are modelled with `getD` under the
length guard. -/
def macd_entries (price_data : List ℚ) (ind : TechnicalIndicators) : List SignalEntry :=
  match ind.macd, ind.macd_signal with
  | some m, some s =>
    if m > s then
      if 1 < price_data.length then
        let md := calculate_macd price_data
        if 2 ≤ md.macd.length ∧ 2 ≤ md.signal.length then
          let prev_macd := md.macd.getD (md.macd.length - 2) 0
          let prev_signal := md.signal.getD (md.signal.length - 2) 0
          if prev_macd ≤ prev_signal then [("BUY", 7/10, "MACD 골든크로스")] else []
        else []
      else []
    else
      if 1 < price_data.length then
        let md := calculate_macd price_data
        if 2 ≤ md.macd.length ∧ 2 ≤ md.signal.length then
          let prev_macd := md.macd.getD (md.macd.length - 2) 0
          let prev_signal := md.signal.getD (md.signal.length - 2) 0
          if prev_macd ≥ prev_signal then [("SELL", 7/10, "MACD 데드크로스")] else []
        else []
      else []
  | _, _ => []

/-- The moving-average block of `generate_trading_signal` (technical.py 169-178). -/
def sma_entries (ind : TechnicalIndicators) : List SignalEntry :=
  match ind.sma_short, ind.sma_long with
  | some sh, some lo =>
    if sh > lo then [("BUY", 6/10, "단기MA > 장기MA")]
    else [("SELL", 6/10, "단기MA < 장기MA")]
  | _, _ => []

/-- The Bollinger block of `generate_trading_signal` (technical.py 180-189). -/
def bollinger_entries (current_price : ℚ) (ind : TechnicalIndicators) : List SignalEntry :=
  match ind.boll_middle, ind.boll_var with
  | some mid, some v =>
    if above_upper_band current_price mid v then [("SELL", 1/2, "볼린저 상단 돌파")]
    else if below_lower_band current_price mid v then [("BUY", 1/2, "볼린저 하단 터치")]
    else []
  | _, _ => []

/-- `indicators_used` list of `generate_trading_signal` (technical.py 213-221). -/
def indicators_used_list (ind : TechnicalIndicators) : List String :=
  (if ind.rsi.isSome then ["RSI"] else []) ++
  (if ind.macd.isSome then ["MACD"] else []) ++
  (if ind.sma_short.isSome then ["이동평균"] else []) ++
  (if ind.boll_middle.isSome ∧ ind.boll_var.isSome then ["볼린저밴드"] else [])

/-- `TechnicalAnalyzer.generate_trading_signal` (technical.py 113-228). -/
def generate_trading_signal (price_data : List ℚ) (ind : TechnicalIndicators) :
    TradingSignal :=
  match price_data.getLast? with
  | none => { signal := "HOLD", confidence := 0, indicators_used := [], reason := "데이터 부족" }
  | some current_price =>
    let entries := rsi_entries ind ++ macd_entries price_data ind ++
      sma_entries ind ++ bollinger_entries current_price ind
    let sig_names := entries.map Prod.fst
    let used := indicators_used_list ind
    if entries = [] then
      { signal := "HOLD", confidence := pymin (1/2) 1, indicators_used := used,
        reason := "명확한 신호 없음" }
    else
      let buy_count := sig_names.count "BUY"
      let sell_count := sig_names.count "SELL"
      if buy_count > sell_count then
        let confs := entries.filterMap (fun e => if e.1 = "BUY" then some e.2.1 else none)
        { signal := "BUY", confidence := pymin (confs.sum / (confs.length : ℚ)) 1,
          indicators_used := used,
          reason := ", ".intercalate (entries.filterMap
            (fun e => if e.1 = "BUY" then some e.2.2 else none)) }
      else if sell_count > buy_count then
        let confs := entries.filterMap (fun e => if e.1 = "SELL" then some e.2.1 else none)
        { signal := "SELL", confidence := pymin (confs.sum / (confs.length : ℚ)) 1,
          indicators_used := used,
          reason := ", ".intercalate (entries.filterMap
            (fun e => if e.1 = "SELL" then some e.2.2 else none)) }
      else
        { signal := "HOLD", confidence := pymin (1/2) 1, indicators_used := used,
          reason := "상충되는 신호들" }

/-- The body of `PriceDriverAnalyzer._analyze_technical_factors`
(price_driver.py 145-207) inside its `try`: `.error` models an exception
reaching the handler.  The only raising site on a NaN-free window is the
final f-string `f"RSI: {indicators.rsi:.1f}"`, which raises `TypeError` when
`indicators.rsi` is `None`. -/
def analyze_technical_factors_core (price_data : Option (List ℚ)) (price_change : ℚ) :
    Except String (Option PriceMovementFactor) :=
  match price_data with
  | none => .ok none
  | some pd =>
    if pd.length < 5 then .ok none
    else
      let ind := analyze_price_data pd
      let signal := generate_trading_signal pd ind
      -- `if not indicators or not signal:` — plain dataclasses are always truthy,
      -- so this early return is dead code
      let rsi_part : ℚ × String :=
        if truthy ind.rsi then
          let r := ind.rsi.getD 0
          if r > 70 then (-(6/10), "과매수 구간에서 차익실현 매물이 나오고 있어요")
          else if r < 30 then (6/10, "과매도 구간에서 저점 매수세가 유입되고 있어요")
          else if r > 50 then (3/10, "상승 모멘텀이 강해지고 있어요")
          else (-(3/10), "하락 모멘텀이 나타나고 있어요")
        else (0, "")
      let macd_part : ℚ × String :=
        if truthy ind.macd ∧ truthy ind.macd_signal then
          let macd_diff := ind.macd.getD 0 - ind.macd_signal.getD 0
          if macd_diff > 0 ∧ price_change > 0 then
            (4/10, "매수 신호가 나타나 상승을 이끌고 있어요")
          else if macd_diff < 0 ∧ price_change < 0 then
            (-(4/10), "매도 신호가 나타나 하락을 이끌고 있어요")
          else (0, "")
        else (0, "")
      let total_impact := (rsi_part.1 + macd_part.1) / 2
      let descriptions := ([rsi_part.2, macd_part.2]).filter (fun d => d ≠ "")
      let final_desc := descriptions.headD "기술적 지표에 따른 움직임이에요"
      match ind.rsi with
      | none => .error "TypeError"
      | some r =>
        .ok (some
          { factor_type := "technical", impact_score := total_impact,
            confidence := if signal.confidence = 0 then 1/2 else signal.confidence,
            description := final_desc,
            technical_reason := "RSI: " ++ toString r ++ ", MACD: " ++ signal.signal })

/-- `PriceDriverAnalyzer._analyze_technical_factors` with its
`except Exception` handler: any exception is logged and `None` is returned. -/
def analyze_technical_factors (price_data : Option (List ℚ)) (price_change : ℚ) :
    Option PriceMovementFactor :=
  match analyze_technical_factors_core price_data price_change with
  | .ok r => r
  | .error _ => none

/-! ### AttributionEngine (`PriceDriverAnalyzer.analyze_price_movement`) -/

/-- The ranking key `abs(x.impact_score) * x.confidence` of the
`factors.sort(..., reverse=True)` call. -/
def factor_key (f : PriceMovementFactor) : ℚ :=
  pyabs f.impact_score * f.confidence

/-- Stable insertion into a descending-sorted list: the inserted element
(being earlier in the original list) goes before later elements of equal key. -/
def insert_desc (f : PriceMovementFactor) :
    List PriceMovementFactor → List PriceMovementFactor
  | [] => [f]
  | g :: gs => if factor_key g ≤ factor_key f then f :: g :: gs
               else g :: insert_desc f gs

/-- `factors.sort(key=lambda x: abs(x.impact_score) * x.confidence,
reverse=True)` — Python's stable sort, descending by key; embedded as a
stable insertion sort (extensionally equal to any stable sort with the same
key). -/
def sort_factors : List PriceMovementFactor → List PriceMovementFactor
  | [] => []
  | f :: rest => insert_desc f (sort_factors rest)

/-- `PriceDriverAnalyzer._generate_movement_summary` (price_driver.py 383-409). -/
def generate_movement_summary (price_change : ℚ) (movement_type : String)
    (factors : List PriceMovementFactor) : String :=
  let base :=
    if movement_type = "crash" then "📉 " ++ toString (pyabs price_change) ++ "% 급락했습니다"
    else if movement_type = "dump" then "📉 " ++ toString (pyabs price_change) ++ "% 크게 하락했습니다"
    else if movement_type = "normal_down" then "📉 " ++ toString (pyabs price_change) ++ "% 하락했습니다"
    else if movement_type = "normal_up" then "📈 " ++ toString price_change ++ "% 상승했습니다"
    else if movement_type = "pump" then "📈 " ++ toString price_change ++ "% 크게 상승했습니다"
    else if movement_type = "surge" then "🚀 " ++ toString price_change ++ "% 급등했습니다"
    else if movement_type = "stable" then "💤 가격이 안정적입니다"
    else toString price_change ++ "% 변동했습니다"
  match factors with
  | [] => base
  | primary :: rest =>
    let s := base ++ "\n\n🔍 주요 원인: " ++ primary.description
    match rest with
    | [] => s
    | secondary :: _ => s ++ "\n\n🔸 추가 요인: " ++ secondary.description

/-- `PriceDriverAnalyzer._generate_recommendation` (price_driver.py 411-436). -/
def generate_recommendation (movement_type : String)
    (factors : List PriceMovementFactor) : String :=
  if movement_type = "crash" ∨ movement_type = "dump" then
    "⚠️ 급락 상황입니다. 패닉 매도는 피하고 상황을 지켜본 후 판단하세요."
  else if movement_type = "surge" ∨ movement_type = "pump" then
    "🚨 급등 상황입니다. FOMO 매수보다는 조정을 기다려 보세요."
  else if movement_type = "normal_up" then
    let primary_impact := (factors.head?.map (·.impact_score)).getD 0
    if primary_impact > 1/2 then "📈 상승 모멘텀이 강합니다. 추가 상승 가능성을 고려해보세요."
    else "📈 적당한 상승입니다. 목표가 도달 시 수익 실현을 고려하세요."
  else if movement_type = "normal_down" then
    let primary_impact := (factors.head?.map (·.impact_score)).getD 0
    if primary_impact < -(1/2) then "📉 하락 모멘텀이 강합니다. 손절매를 고려하거나 대기하세요."
    else "📉 일시적 조정일 수 있습니다. 장기 관점에서 판단하세요."
  else "💡 현재 상황을 지켜보며 기회를 기다리세요."

/-- The `if price_data is not None:` guard around the technical-factor
append (price_driver.py 86-89): the factor list contributed by the
technical analyzer. -/
def technical_part (price_data : Option (List ℚ)) (price_change : ℚ) :
    List PriceMovementFactor :=
  if price_data.isSome then (analyze_technical_factors price_data price_change).toList
  else []

/-- Python exceptions escaping `analyze_price_movement`: an unhandled
`ZeroDivisionError` from a scalar `/`. -/
inductive AnalysisError where
  | zeroDivision
deriving Repr, DecidableEq

/-- `PriceDriverAnalyzer.analyze_price_movement` (price_driver.py 58-126).
The sentiment and macro feeds (network singletons in the source) are passed
as explicit snapshot arguments; `price_data = none` is Python's
`price_data=None` default.  The two raising sites are the percent-change
division (`price_24h_ago = 0`) and the overall-confidence weighted average
(all retained factors with `impact_score = 0`). -/
def analyze_price_movement (_coin_id : String) (current_price price_24h_ago : ℚ)
    (price_data : Option (List ℚ)) (sentiment : MarketSentiment)
    (macro_signals : List (String × ℚ)) :
    Except AnalysisError PriceMovementAnalysis :=
  if price_24h_ago = 0 then .error .zeroDivision
  else
    let price_change := (current_price - price_24h_ago) / price_24h_ago * 100
    let movement_type := classify_movement price_change
    if pyabs price_change < 1 then
      .ok { price_change_percent := price_change, movement_type := "stable",
            primary_factors := [],
            summary := "가격이 안정적으로 유지되고 있습니다.",
            recommendation := "현재 상황을 지켜보세요.",
            confidence := 8/10 }
    else
      let factors : List PriceMovementFactor :=
        technical_part price_data price_change ++
        (analyze_sentiment_factors sentiment price_change).toList ++
        (analyze_macro_factors macro_signals price_change).toList ++
        (analyze_structural_factors price_change movement_type).toList
      let sorted := sort_factors factors
      let summary := generate_movement_summary price_change movement_type sorted
      let recommendation := generate_recommendation movement_type sorted
      if sorted = [] then
        .ok { price_change_percent := price_change, movement_type := movement_type,
              primary_factors := [], summary := summary,
              recommendation := recommendation,
              confidence := pymin 1 (pymax 0 (1/2)) }
      else
        let top := sorted.take 3
        let denom := (top.map (fun f => pyabs f.impact_score)).sum
        if denom = 0 then .error .zeroDivision
        else
          let confidence := (top.map (fun f => f.confidence * |f.impact_score|)).sum / denom
          .ok { price_change_percent := price_change, movement_type := movement_type,
                primary_factors := top, summary := summary,
                recommendation := recommendation,
                confidence := pymin 1 (pymax 0 confidence) }

/-! ### Walk-forward validator (`PriceDriverValidator.validate_price_predictions`) -/

/-- `dataclass ValidationResult` (backtesting.py 21-30).  The `date` field of
the source holds the formatted timestamp at series index `i`
(`crypto_data.index[i].strftime(...)`); the embedding identifies the
timestamp by its index. -/
structure ValidationResult where
  date : ℕ
  actual_change : ℚ
  predicted_movement : String
  actual_movement : String
  accuracy : Bool
  confidence : ℚ
  primary_factors : List String
deriving Repr, DecidableEq

/-- `dataclass BacktestReport` (backtesting.py 32-42).  The dict-valued fields
are association lists in insertion order (Python dict semantics). -/
structure BacktestReport where
  period : String
  total_predictions : ℕ
  correct_predictions : ℕ
  accuracy_rate : ℚ
  movement_type_accuracy : List (String × ℚ)
  factor_effectiveness : List (String × ℚ)
  validation_results : List ValidationResult
  summary : String
deriving Repr, DecidableEq

/-- Python / pandas positional slicing `l[start:stop]` (`DataFrame.iloc`
uses the same rules): negative endpoints count from the end, and endpoints
are clamped to `[0, len(l)]`. -/
def py_slice (l : List ℚ) (start stop : Int) : List ℚ :=
  let n : Int := l.length
  let clamp : Int → ℕ := fun j => ((max 0 (min j n)).toNat)
  let s := if start < 0 then clamp (n + start) else clamp start
  let e := if stop < 0 then clamp (n + stop) else clamp stop
  (l.take e).drop s

/-- The look-back window `crypto_data.iloc[i-47:i]['Close']` handed to the
attribution engine at replay step `i` (backtesting.py line 196). -/
def replay_window (closes : List ℚ) (i : ℕ) : List ℚ :=
  py_slice closes ((i : ℤ) - 47) (i : ℤ)

/-- The per-movement-type / per-factor-type counter update:
`stats.setdefault(k, {'total': 0, 'correct': 0})`, `['total'] += 1`, and
`['correct'] += 1` when the step was correct.  Entries are `(key, total,
correct)` in first-seen order. -/
def update_stat (stats : List (String × ℕ × ℕ)) (k : String) (correct : Bool) :
    List (String × ℕ × ℕ) :=
  match stats with
  | [] => [(k, 1, if correct then 1 else 0)]
  | (k', t, c) :: rest =>
    if k' = k then (k', t + 1, c + if correct then 1 else 0) :: rest
    else (k', t, c) :: update_stat rest k correct

/-- The mutable loop state of `validate_price_predictions`:
`validation_results`, `correct_predictions`, `movement_type_stats`,
`factor_stats`. -/
structure ReplayState where
  results : List ValidationResult := []
  correct : ℕ := 0
  mstats : List (String × ℕ × ℕ) := []
  fstats : List (String × ℕ × ℕ) := []
deriving Repr, DecidableEq

/-- One iteration of the `for i in range(24, len(crypto_data))` loop
(backtesting.py 184-246).  The whole body runs under `try`: a raising step
(`price_24h_ago == 0` in the change formula, or an exception escaping
`analyze_price_movement`) is logged and skipped, leaving the state
unchanged.  The sentiment/macro feed snapshots are per-run constants. -/
def validation_step (closes : List ℚ) (sentiment : MarketSentiment)
    (macro_signals : List (String × ℚ)) (coin_id : String)
    (st : ReplayState) (i : ℕ) : ReplayState :=
  let current_price := closes.getD i 0
  let price_24h_ago := closes.getD (i - 24) 0
  if price_24h_ago = 0 then st
  else
    let actual_change := (current_price - price_24h_ago) / price_24h_ago * 100
    let actual_movement := classify_movement_validator actual_change
    let price_series := replay_window closes i
    match analyze_price_movement coin_id current_price price_24h_ago
        (some price_series) sentiment macro_signals with
    | .error _ => st
    | .ok analysis =>
      let predicted_movement := analysis.movement_type
      let is_correct := evaluate_prediction_accuracy actual_change actual_movement
        analysis.price_change_percent predicted_movement
      let vr : ValidationResult :=
        { date := i
          actual_change := actual_change
          predicted_movement := predicted_movement
          actual_movement := actual_movement
          accuracy := is_correct
          -- max([f.confidence for f in primary_factors]) if nonempty else 0.5
          confidence := ((analysis.primary_factors.map (·.confidence)).maximum).getD (1/2)
          primary_factors := analysis.primary_factors.map (·.factor_type) }
      { results := st.results ++ [vr]
        correct := st.correct + (if is_correct then 1 else 0)
        mstats := update_stat st.mstats actual_movement is_correct
        fstats := (analysis.primary_factors.map (·.factor_type)).foldl
          (fun fs ft => update_stat fs ft is_correct) st.fstats }

/-- `PriceDriverValidator._generate_validation_summary` (backtesting.py
316-341); numeric formatting abstracted by `toString`. -/
def generate_validation_summary (coin_id : String) (days : ℕ) (total correct : ℕ)
    (accuracy : ℚ) (movement_acc factor_eff : List (String × ℚ)) : String :=
  let base := "📊 " ++ coin_id ++ " 가격 변동 분석 검증 보고서\n" ++
    "검증 기간: " ++ toString days ++ "일\n" ++
    "전체 예측: " ++ toString total ++ "회\n" ++
    "정확한 예측: " ++ toString correct ++ "회\n" ++
    "전체 정확도: " ++ toString accuracy ++ "\n\n"
  let base := base ++ "📈 변동 유형별 정확도:\n" ++
    String.join (movement_acc.map (fun p => "  • " ++ p.1 ++ ": " ++ toString p.2 ++ "\n"))
  let base := base ++ "\n🔍 요인별 효과성:\n" ++
    String.join (factor_eff.map (fun p => "  • " ++ p.1 ++ ": " ++ toString p.2 ++ "\n"))
  if accuracy ≥ 7/10 then base ++ "\n✅ 우수: 분석 시스템이 높은 정확도를 보여줍니다."
  else if accuracy ≥ 1/2 then base ++ "\n⚠️ 보통: 분석 시스템이 적절한 성능을 보여줍니다."
  else base ++ "\n❌ 개선 필요: 분석 시스템의 정확도 향상이 필요합니다."

/-- Errors escaping `validate_price_predictions`: the explicit
`raise ValueError` when the historical data collection returned `None`. -/
inductive ValidateError where
  | valueError
deriving Repr, DecidableEq

/-- `PriceDriverValidator.validate_price_predictions` (backtesting.py
166-279).  `crypto_data` is the collected `Close` series (`none` models a
failed collection), `sentiment`/`macro_signals` the per-run feed snapshots. -/
def validate_price_predictions (coin_id : String) (days : ℕ)
    (crypto_data : Option (List ℚ)) (sentiment : MarketSentiment)
    (macro_signals : List (String × ℚ)) : Except ValidateError BacktestReport :=
  match crypto_data with
  | none => .error .valueError
  | some closes =>
    let final := (List.range' 24 (closes.length - 24)).foldl
      (validation_step closes sentiment macro_signals coin_id) {}
    let total_predictions := final.results.length
    let accuracy_rate : ℚ :=
      if total_predictions = 0 then 0
      else (final.correct : ℚ) / (total_predictions : ℚ)
    let movement_accuracy := final.mstats.map
      (fun p => (p.1, if p.2.1 = 0 then (0 : ℚ) else (p.2.2 : ℚ) / (p.2.1 : ℚ)))
    let factor_effectiveness := final.fstats.map
      (fun p => (p.1, if p.2.1 = 0 then (0 : ℚ) else (p.2.2 : ℚ) / (p.2.1 : ℚ)))
    .ok { period := toString days ++ "일"
          total_predictions := total_predictions
          correct_predictions := final.correct
          accuracy_rate := accuracy_rate
          movement_type_accuracy := movement_accuracy
          factor_effectiveness := factor_effectiveness
          -- validation_results[-10:]
          validation_results := final.results.drop (final.results.length - 10)
          summary := generate_validation_summary coin_id days total_predictions
            final.correct accuracy_rate movement_accuracy factor_effectiveness }

/-- Spec-side sign function (§4.6): `sign(x)` with a zero change counting as
its own "stable" direction.  Used only to compare the implementation's
direction test against the specification's wording. -/
def spec_sign (x : ℚ) : Int :=
  if x > 0 then 1 else if x < 0 then -1 else 0

/-- A concrete 26-point, strictly decreasing price window
`[51, 50, …, 26]`, used as input for concrete evaluations: its RSI is
exactly 0.0 (no gains in any 14-step window), which Python's truthiness test
`if indicators.rsi:` treats as absent, so the technical factor it produces
carries `impact_score = 0`. -/
def c2_prices : List ℚ := (List.range 26).map (fun i => (51 : ℚ) - i)

/-! ## Theorems -/

theorem pyabs_eq_abs (x : ℚ) : pyabs x = |x| := by
  by_cases h : x < 0 <;> simp [pyabs, h, abs_of_neg, abs_of_nonneg, not_lt.mp]

theorem pymin_eq_min (a b : ℚ) : pymin a b = min a b := by
  by_cases h : a ≤ b <;> simp [pymin, h, min_def]

theorem pymax_eq_max (a b : ℚ) : pymax a b = max a b := by
  rcases le_total a b with h | h
  · rcases eq_or_lt_of_le h with rfl | hlt
    · simp [pymax, max_def]
    · simp [pymax, max_def, h, not_le.mpr hlt]
  · have : pymax a b = a := by simp [pymax, h]
    rw [this, max_eq_left h]

/-- C4: the movement classifier is total and deterministic with the seven
bands `x ≤ -15 → crash`, `-15 < x ≤ -8 → dump`, `-8 < x ≤ -3 → normal_down`,
`-3 < x < 3 → stable`, `3 ≤ x < 8 → normal_up`, `8 ≤ x < 15 → pump`,
`x ≥ 15 → surge`; each boundary value belongs to exactly one band
(the iff characterizations partition ℚ), and the engine's classifier and the
validator's classifier agree on every input. -/
theorem classifier_bands_and_agreement (x : ℚ) :
    classify_movement x = classify_movement_validator x
    ∧ (x ≤ -15 ↔ classify_movement x = "crash")
    ∧ (-15 < x ∧ x ≤ -8 ↔ classify_movement x = "dump")
    ∧ (-8 < x ∧ x ≤ -3 ↔ classify_movement x = "normal_down")
    ∧ (-3 < x ∧ x < 3 ↔ classify_movement x = "stable")
    ∧ (3 ≤ x ∧ x < 8 ↔ classify_movement x = "normal_up")
    ∧ (8 ≤ x ∧ x < 15 ↔ classify_movement x = "pump")
    ∧ (15 ≤ x ↔ classify_movement x = "surge") := by
  refine ⟨rfl, ?_, ?_, ?_, ?_, ?_, ?_, ?_⟩ <;>
  constructor <;> intro hh <;> (try obtain ⟨hh1, hh2⟩ := hh) <;>
  first
  | (simp only [classify_movement, movement_thresholds]
     split_ifs <;> (try rfl) <;> (exfalso; linarith))
  | (simp only [classify_movement, movement_thresholds] at hh
     split_ifs at hh <;>
       first
       | exact absurd hh (by decide)
       | exact ⟨by linarith, by linarith⟩
       | linarith)

/-- C5: the accuracy evaluator returns `True` iff the actual and predicted
changes have the same sign (zero being its own "stable" direction) and either
the movement labels agree or the changes differ by at most 2 percentage
points; in particular `(+10, pump)` vs `(+9, pump)` is correct and
`(+10, pump)` vs `(+2, normal_up)` is not. -/
theorem accuracy_evaluator_spec :
    (∀ (ac pc : ℚ) (am pm : String),
        evaluate_prediction_accuracy ac am pc pm = true
          ↔ (spec_sign ac = spec_sign pc ∧ (am = pm ∨ |ac - pc| ≤ 2)))
    ∧ evaluate_prediction_accuracy 10 "pump" 9 "pump" = true
    ∧ evaluate_prediction_accuracy 10 "pump" 2 "normal_up" = false := by
  refine ⟨?_, by with_unfolding_all rfl, by with_unfolding_all rfl⟩
  intro ac pc am pm
  have hdir : (direction_of ac == direction_of pc) = true ↔ spec_sign ac = spec_sign pc := by
    simp only [beq_iff_eq]
    unfold direction_of spec_sign
    split_ifs <;> simp_all <;> linarith
  simp only [evaluate_prediction_accuracy, Bool.and_eq_true, Bool.or_eq_true,
    beq_iff_eq, decide_eq_true_eq, hdir, pyabs_eq_abs]

/-- C6 counterexample: the engine invokes the structural analyzer for every
`|price_change| ≥ 1` (no short-circuit), yet at `price_change = 1.5` — whose
classification is `stable` — the analyzer returns the absent result, so it is
not "always available". -/
theorem structural_absent_counterexample :
    analyze_structural_factors (3/2) (classify_movement (3/2)) = none
      ∧ classify_movement (3/2) = "stable" := by
  constructor <;> with_unfolding_all rfl

/-- C6 amended: for arguments as the engine produces them
(`movement_type = classify_movement price_change`), the structural analyzer
returns a factor exactly when `|price_change| > 2`; for smaller changes with
a non-extreme movement type it is absent. -/
theorem structural_availability (pc : ℚ) :
    (analyze_structural_factors pc (classify_movement pc)).isSome
      = decide (2 < pyabs pc) := by
  have hneg : pc < 0 → pyabs pc = -pc := fun h => by simp [pyabs, h]
  have hpos : 0 ≤ pc → pyabs pc = pc := fun h => by simp [pyabs, not_lt.mpr h]
  simp only [classify_movement, movement_thresholds]
  split_ifs with h1 h2 h3 h4 h5 h6
  · have e : (2:ℚ) < pyabs pc := by rw [hneg (by linarith)]; linarith
    simp [analyze_structural_factors, e]
  · have e : (2:ℚ) < pyabs pc := by rw [hneg (by linarith)]; linarith
    simp [analyze_structural_factors, e]
  · have e : (2:ℚ) < pyabs pc := by rw [hneg (by linarith)]; linarith
    have hp : ¬ pc > 0 := by linarith
    simp [analyze_structural_factors, e, hp]
  · have e : (2:ℚ) < pyabs pc := by rw [hpos (by linarith)]; linarith
    simp [analyze_structural_factors, e]
  · have e : (2:ℚ) < pyabs pc := by rw [hpos (by linarith)]; linarith
    simp [analyze_structural_factors, e]
  · have e : (2:ℚ) < pyabs pc := by rw [hpos (by linarith)]; linarith
    have hp : pc > 0 := by linarith
    simp [analyze_structural_factors, e, hp]
  · by_cases e : 2 < pyabs pc
    · by_cases hp : pc > 0 <;> simp [analyze_structural_factors, e, hp]
    · simp [analyze_structural_factors, e]

theorem pyabs_nonneg (x : ℚ) : 0 ≤ pyabs x := by
  unfold pyabs; split_ifs <;> linarith

theorem pyabs_eq_zero {x : ℚ} (h : pyabs x = 0) : x = 0 := by
  unfold pyabs at h; split_ifs at h <;> linarith

theorem mem_insert_desc {x f : PriceMovementFactor} {l : List PriceMovementFactor} :
    x ∈ insert_desc f l ↔ x = f ∨ x ∈ l := by
  induction l with
  | nil => simp [insert_desc]
  | cons g gs ih =>
    simp only [insert_desc]
    split_ifs
    · simp
    · simp only [List.mem_cons, ih]
      tauto

theorem mem_sort_factors {x : PriceMovementFactor} {l : List PriceMovementFactor} :
    x ∈ sort_factors l ↔ x ∈ l := by
  induction l with
  | nil => simp [sort_factors]
  | cons f fs ih => simp [sort_factors, mem_insert_desc, ih]

theorem pyabs_gt_ne_zero {x c : ℚ} (hc : 0 ≤ c) (h : pyabs x > c) : x ≠ 0 := by
  intro h0
  rw [h0] at h
  unfold pyabs at h
  simp at h
  linarith

theorem clamp_ne_zero {y : ℚ} (hy : y ≠ 0) : pymax (-1) (pymin 1 y) ≠ 0 := by
  unfold pymax pymin
  split_ifs <;> intro h0 <;> first | exact hy h0 | norm_num at h0

theorem sentiment_some_facts {s : MarketSentiment} {pc : ℚ} {f : PriceMovementFactor}
    (h : analyze_sentiment_factors s pc = some f) :
    f.factor_type = "sentiment" ∧ f.impact_score ≠ 0 := by
  simp only [analyze_sentiment_factors] at h
  split_ifs at h with hg
  injection h with h'
  subst h'
  exact ⟨rfl, pyabs_gt_ne_zero (by norm_num) hg⟩

theorem macro_some_facts {ms : List (String × ℚ)} {pc : ℚ} {f : PriceMovementFactor}
    (h : analyze_macro_factors ms pc = some f) :
    f.factor_type = "macro" ∧ f.impact_score ≠ 0 := by
  simp only [analyze_macro_factors] at h
  split_ifs at h with h0 hg
  injection h with h'
  subst h'
  exact ⟨rfl, clamp_ne_zero (pyabs_gt_ne_zero (by norm_num) hg)⟩

theorem structural_some_facts {pc : ℚ} {mt : String} {f : PriceMovementFactor}
    (h : analyze_structural_factors pc mt = some f) :
    f.factor_type = "structural" ∧ f.impact_score ≠ 0 := by
  unfold analyze_structural_factors at h
  split_ifs at h <;> (injection h with h'; subst h'; exact ⟨rfl, by norm_num⟩)

theorem technical_some_type {pd : Option (List ℚ)} {pc : ℚ} {f : PriceMovementFactor}
    (h : analyze_technical_factors pd pc = some f) : f.factor_type = "technical" := by
  unfold analyze_technical_factors at h
  unfold analyze_technical_factors_core at h
  cases pd with
  | none => simp at h
  | some pdl =>
    by_cases h5 : pdl.length < 5
    · simp [h5] at h
    · simp only [h5] at h
      rcases hr : (analyze_price_data pdl).rsi with _ | rv
      · simp [hr] at h
      · simp [hr] at h
        rw [← h]

theorem mem_technical_part {pd : Option (List ℚ)} {pc : ℚ} {f : PriceMovementFactor}
    (h : f ∈ technical_part pd pc) : analyze_technical_factors pd pc = some f := by
  unfold technical_part at h
  split at h
  · simpa [Option.mem_toList, Option.mem_def] using h
  · simp at h

/-- Whenever `analyze_price_movement` returns normally, the divisor was
nonzero and the reported percent change is `((current - ago) / ago) * 100`. -/
theorem analyze_ok_change {coin : String} {c a : ℚ} {pd : Option (List ℚ)}
    {s : MarketSentiment} {ms : List (String × ℚ)} {r : PriceMovementAnalysis}
    (h : analyze_price_movement coin c a pd s ms = .ok r) :
    a ≠ 0 ∧ r.price_change_percent = (c - a) / a * 100 := by
  by_cases ha : a = 0
  · unfold analyze_price_movement at h
    rw [if_pos ha] at h
    exact Except.noConfusion h
  · simp only [analyze_price_movement, ha, if_neg, if_false] at h
    refine ⟨ha, ?_⟩
    split_ifs at h <;>
      first
      | (injection h with h'; subst h'; rfl)
      | exact Except.noConfusion h

/-- Every factor retained in a normal result was produced by one of the four
factor analyzers, evaluated at the computed percent change. -/
theorem analyze_ok_primary_mem {coin : String} {c a : ℚ} {pd : Option (List ℚ)}
    {s : MarketSentiment} {ms : List (String × ℚ)} {r : PriceMovementAnalysis}
    (h : analyze_price_movement coin c a pd s ms = .ok r) :
    ∀ f ∈ r.primary_factors,
      analyze_technical_factors pd ((c - a) / a * 100) = some f
      ∨ analyze_sentiment_factors s ((c - a) / a * 100) = some f
      ∨ analyze_macro_factors ms ((c - a) / a * 100) = some f
      ∨ analyze_structural_factors ((c - a) / a * 100)
          (classify_movement ((c - a) / a * 100)) = some f := by
  by_cases ha : a = 0
  · unfold analyze_price_movement at h
    rw [if_pos ha] at h
    exact Except.noConfusion h
  · simp only [analyze_price_movement, ha, if_neg, if_false] at h
    split_ifs at h with h1 h2 h3
    · injection h with h'; subst h'; simp
    · injection h with h'; subst h'; simp
    · injection h with h'; subst h'
      intro f hf
      have hf2 : f ∈ sort_factors _ := List.take_subset 3 _ hf
      rw [mem_sort_factors] at hf2
      rcases List.mem_append.mp hf2 with hA | hBCD
      · rcases List.mem_append.mp hA with hA | hB
        · rcases List.mem_append.mp hA with hA | hB
          · exact Or.inl (mem_technical_part hA)
          · simp only [Option.mem_toList, Option.mem_def] at hB
            exact Or.inr (Or.inl hB)
        · simp only [Option.mem_toList, Option.mem_def] at hB
          exact Or.inr (Or.inr (Or.inl hB))
      · simp only [Option.mem_toList, Option.mem_def] at hBCD
        exact Or.inr (Or.inr (Or.inr hBCD))

theorem sum_pos_of_mem_pos {l : List ℚ} (h0 : ∀ x ∈ l, 0 ≤ x) {x : ℚ}
    (hx : x ∈ l) (hp : 0 < x) : 0 < l.sum := by
  induction l with
  | nil => simp at hx
  | cons a t ih =>
    have ht : 0 ≤ t.sum := List.sum_nonneg (fun y hy => h0 y (List.mem_cons_of_mem a hy))
    rcases List.mem_cons.mp hx with rfl | hx'
    · simpa using add_pos_of_pos_of_nonneg hp ht
    · have ha : 0 ≤ a := h0 a (List.mem_cons_self a t)
      have := ih (fun y hy => h0 y (List.mem_cons_of_mem a hy)) hx'
      simpa using add_pos_of_nonneg_of_pos ha this

/-- The only exceptions escaping `analyze_price_movement` are the entry
division by `price_24h_ago = 0` and the confidence aggregation dividing by
zero — the latter only when a retained factor has `impact_score = 0`, which
only the technical analyzer can produce. -/
theorem analyze_error_imp {coin : String} {c a : ℚ} {pd : Option (List ℚ)}
    {s : MarketSentiment} {ms : List (String × ℚ)} {e : AnalysisError}
    (h : analyze_price_movement coin c a pd s ms = .error e) :
    a = 0 ∨ ∃ f, analyze_technical_factors pd ((c - a) / a * 100) = some f
      ∧ f.impact_score = 0 := by
  by_cases ha : a = 0
  · exact Or.inl ha
  · right
    simp only [analyze_price_movement, ha, if_neg, if_false] at h
    -- after the split only the aggregation-division branch survives: every
    -- retained factor has zero impact there
    split_ifs at h with h1 h2 h3
    set F := technical_part pd ((c - a) / a * 100)
      ++ (analyze_sentiment_factors s ((c - a) / a * 100)).toList
      ++ (analyze_macro_factors ms ((c - a) / a * 100)).toList
      ++ (analyze_structural_factors ((c - a) / a * 100)
          (classify_movement ((c - a) / a * 100))).toList with hF
    have hall : ∀ f ∈ (sort_factors F).take 3, pyabs f.impact_score = 0 := by
      intro f hf
      by_contra hne
      have hpos : 0 < pyabs f.impact_score :=
        lt_of_le_of_ne (pyabs_nonneg _) (Ne.symm hne)
      have hmem : pyabs f.impact_score ∈
          ((sort_factors F).take 3).map (fun f => pyabs f.impact_score) :=
        List.mem_map_of_mem _ hf
      have := sum_pos_of_mem_pos (fun x hx => by
        rcases List.mem_map.mp hx with ⟨g, _, rfl⟩
        exact pyabs_nonneg _) hmem hpos
      rw [h3] at this
      exact lt_irrefl 0 this
    obtain ⟨f, hf⟩ : ∃ f, f ∈ (sort_factors F).take 3 := by
      refine List.exists_mem_of_ne_nil _ ?_
      rw [Ne, List.take_eq_nil_iff]
      rintro (h3' | h2')
      · norm_num at h3'
      · exact h2 h2'
    have hz : f.impact_score = 0 := pyabs_eq_zero (hall f hf)
    have hf2 : f ∈ sort_factors F := List.take_subset 3 _ hf
    rw [mem_sort_factors] at hf2
    rw [hF] at hf2
    rcases List.mem_append.mp hf2 with hA | hBCD
    · rcases List.mem_append.mp hA with hA | hB
      · rcases List.mem_append.mp hA with hA | hB
        · exact ⟨f, mem_technical_part hA, hz⟩
        · simp only [Option.mem_toList, Option.mem_def] at hB
          exact absurd hz (sentiment_some_facts hB).2
      · simp only [Option.mem_toList, Option.mem_def] at hB
        exact absurd hz (macro_some_facts hB).2
    · simp only [Option.mem_toList, Option.mem_def] at hBCD
      exact absurd hz (structural_some_facts hBCD).2

/-- C7 counterexample: a call with `price_24h_ago = -100 < 0` is not rejected
at all — it returns a normal analysis whose change is silently sign-inverted
(the price rose from -100?…, yet the formula yields -150 % and "crash"). -/
theorem invalid_input_not_rejected :
    (analyze_price_movement "bitcoin" 50 (-100) none {} []).toOption.map
      (fun r => (r.price_change_percent, r.movement_type)) = some (-150, "crash") := by
  with_unfolding_all rfl

/-- C7 amended: `analyze_price_movement` performs no validation of
`price_24h_ago`.  A call with `price_24h_ago = 0` escapes with the raw
`ZeroDivisionError` of the change formula (no distinct InvalidInput
failure), and a call with `price_24h_ago < 0` proceeds normally with the
unchecked formula `((current - ago) / ago) * 100`. -/
theorem no_validation_of_price_24h_ago (coin : String) (c a : ℚ)
    (pd : Option (List ℚ)) (s : MarketSentiment) (ms : List (String × ℚ)) :
    (a = 0 → analyze_price_movement coin c a pd s ms = .error .zeroDivision)
    ∧ (∀ r, analyze_price_movement coin c a pd s ms = .ok r →
        r.price_change_percent = (c - a) / a * 100) := by
  constructor
  · intro ha
    unfold analyze_price_movement
    rw [if_pos ha]
  · intro r hr
    exact (analyze_ok_change hr).2

/-- C7 witness: the amended claim instantiated at `price_24h_ago = 0`
(raw ZeroDivisionError) and at `price_24h_ago = -100` (silently accepted,
change −150 %). -/
theorem no_validation_of_price_24h_ago_witness :
    analyze_price_movement "bitcoin" 50 0 none {} [] = .error .zeroDivision
    ∧ (analyze_price_movement "bitcoin" 50 (-100) none {} []).toOption.map
        (fun r => r.price_change_percent) = some ((50 - (-100)) / (-100) * 100) := by
  constructor
  · exact (no_validation_of_price_24h_ago "bitcoin" 50 0 none {} []).1 rfl
  · have h2 := (no_validation_of_price_24h_ago "bitcoin" 50 (-100) none {} []).2
    rcases heq : analyze_price_movement "bitcoin" 50 (-100) none {} [] with e | r
    · have hok : (analyze_price_movement "bitcoin" 50 (-100) none {} []).isOk = true := by
        with_unfolding_all rfl
      rw [heq] at hok
      exact absurd hok (by simp [Except.isOk, Except.toBool])
    · simp [Except.toOption, h2 r heq]

/-- C2: the confidence aggregation does NOT exclude zero-impact factors; the
division is reachable with a zero denominator.  With the strictly decreasing
26-point window `c2_prices` (RSI exactly 0.0, so the falsy check yields a
technical factor with `impact_score = 0`), no sentiment/macro feeds, and a
+1.5 % change (structural analyzer absent), the only retained factor has
impact 0 and `analyze_price_movement` raises ZeroDivisionError. -/
theorem confidence_aggregation_zero_division :
    analyze_price_movement "bitcoin" (203/2) 100 (some c2_prices) {} []
      = .error .zeroDivision
    ∧ analyze_technical_factors (some c2_prices) (3/2)
      = some { factor_type := "technical", impact_score := 0, confidence := 1/2,
               description := "기술적 지표에 따른 움직임이에요",
               technical_reason := "RSI: 0, MACD: HOLD" } := by
  constructor
  · set_option maxRecDepth 100000 in with_unfolding_all rfl
  · set_option maxRecDepth 100000 in with_unfolding_all rfl

/-- C3: with a price window of fewer than 26 points the technical analyzer
always returns the absent result (for 5–25 points its indicators are all
`None` and the resulting f-string `TypeError` is caught to `None`), hence no
`technical`-typed Factor appears in `primary_factors`; and no exception is
raised by this absence — the only error `analyze_price_movement` can raise
with such a window is the window-independent entry division
(`price_24h_ago = 0`). -/
theorem technical_absent_below_26 (pd : List ℚ) (coin : String) (c a : ℚ)
    (s : MarketSentiment) (ms : List (String × ℚ)) (hlen : pd.length < 26) :
    (∀ pc : ℚ, analyze_technical_factors (some pd) pc = none)
    ∧ (∀ r, analyze_price_movement coin c a (some pd) s ms = .ok r →
        ∀ f ∈ r.primary_factors, f.factor_type ≠ "technical")
    ∧ (∀ e, analyze_price_movement coin c a (some pd) s ms = .error e → a = 0) := by
  have htech : ∀ pc : ℚ, analyze_technical_factors (some pd) pc = none := by
    intro pc
    unfold analyze_technical_factors analyze_technical_factors_core
    by_cases h5 : pd.length < 5
    · simp [h5]
    · have hind : analyze_price_data pd = {} := by
        unfold analyze_price_data
        rw [if_pos hlen]
      simp [h5, hind]
  refine ⟨htech, ?_, ?_⟩
  · intro r hr f hf
    rcases analyze_ok_primary_mem hr f hf with ht | hs | hm | hst
    · rw [htech] at ht
      exact Option.noConfusion ht
    · rw [(sentiment_some_facts hs).1]
      decide
    · rw [(macro_some_facts hm).1]
      decide
    · rw [(structural_some_facts hst).1]
      decide
  · intro e he
    rcases analyze_error_imp he with ha | ⟨f, hf, _⟩
    · exact ha
    · rw [htech] at hf
      exact Option.noConfusion hf

/-- C3 witness: the theorem applied to a concrete 5-point window. -/
theorem technical_absent_below_26_witness :
    analyze_technical_factors (some [100, 101, 102, 99, 98]) 5 = none :=
  (technical_absent_below_26 [100, 101, 102, 99, 98] "btc" 105 100 {} []
    (by norm_num)).1 5

/-- A prediction whose predicted change equals the actual change is always
evaluated as correct: the directions coincide and the error `|ac - ac| = 0`
is within the 2-point tolerance, whatever the movement labels. -/
theorem eval_accuracy_self (ac : ℚ) (am pm : String) :
    evaluate_prediction_accuracy ac am ac pm = true := by
  unfold evaluate_prediction_accuracy
  have h0 : pyabs (ac - ac) = 0 := by simp [pyabs]
  simp [h0]
  exact Or.inr (by norm_num [pyabs])

theorem validation_step_facts (closes : List ℚ) (s : MarketSentiment)
    (ms : List (String × ℚ)) (coin : String) (st : ReplayState) (i : ℕ)
    (h1 : ∀ v ∈ st.results, v.accuracy = true)
    (h2 : st.correct = st.results.length) :
    (∀ v ∈ (validation_step closes s ms coin st i).results, v.accuracy = true)
    ∧ (validation_step closes s ms coin st i).correct
      = (validation_step closes s ms coin st i).results.length := by
  simp only [validation_step]
  split_ifs with hz
  · exact ⟨h1, h2⟩
  · rcases heq : analyze_price_movement coin (closes.getD i 0) (closes.getD (i - 24) 0)
        (some (replay_window closes i)) s ms with e | analysis
    · simp only [heq]
      exact ⟨h1, h2⟩
    · simp only [heq]
      have hch := (analyze_ok_change heq).2
      have hacc : evaluate_prediction_accuracy
          ((closes.getD i 0 - closes.getD (i - 24) 0) / closes.getD (i - 24) 0 * 100)
          (classify_movement_validator
            ((closes.getD i 0 - closes.getD (i - 24) 0) / closes.getD (i - 24) 0 * 100))
          analysis.price_change_percent analysis.movement_type = true := by
        rw [hch]
        exact eval_accuracy_self _ _ _
      have hacc2 : evaluate_prediction_accuracy
          ((closes[i]?.getD 0 - closes[i - 24]?.getD 0) / closes[i - 24]?.getD 0 * 100)
          (classify_movement_validator
            ((closes[i]?.getD 0 - closes[i - 24]?.getD 0) / closes[i - 24]?.getD 0 * 100))
          analysis.price_change_percent analysis.movement_type = true := by
        simpa using hacc
      constructor
      · intro v hv
        rcases List.mem_append.mp hv with hv | hv
        · exact h1 v hv
        · rw [List.mem_singleton.mp hv]
          exact hacc
      · simp [hacc2, h2]

theorem replay_foldl_facts (closes : List ℚ) (s : MarketSentiment)
    (ms : List (String × ℚ)) (coin : String) (idxs : List ℕ) (st : ReplayState)
    (h1 : ∀ v ∈ st.results, v.accuracy = true)
    (h2 : st.correct = st.results.length) :
    (∀ v ∈ (idxs.foldl (validation_step closes s ms coin) st).results, v.accuracy = true)
    ∧ (idxs.foldl (validation_step closes s ms coin) st).correct
      = (idxs.foldl (validation_step closes s ms coin) st).results.length := by
  induction idxs generalizing st with
  | nil => exact ⟨h1, h2⟩
  | cons i rest ih =>
    simp only [List.foldl_cons]
    obtain ⟨g1, g2⟩ := validation_step_facts closes s ms coin st i h1 h2
    exact ih _ g1 g2

/-- C1: in every replay step that appends a ValidationRecord, the predicted
change handed to the accuracy evaluator is computed from the same
`current_price` / `price_24h_ago` by the same formula as the actual change,
so they are equal, every record has `accuracy = True`, correct equals total,
and the accuracy rate is exactly 1 whenever any prediction was recorded. -/
theorem replay_all_records_correct (coin : String) (days : ℕ) (closes : List ℚ)
    (s : MarketSentiment) (ms : List (String × ℚ)) (r : BacktestReport)
    (h : validate_price_predictions coin days (some closes) s ms = .ok r) :
    (∀ v ∈ r.validation_results, v.accuracy = true)
    ∧ r.correct_predictions = r.total_predictions
    ∧ (0 < r.total_predictions → r.accuracy_rate = 1) := by
  simp only [validate_price_predictions] at h
  injection h with h'
  subst h'
  obtain ⟨g1, g2⟩ := replay_foldl_facts closes s ms coin
    (List.range' 24 (closes.length - 24)) {} (by simp [ReplayState.results]) rfl
  refine ⟨?_, g2, ?_⟩
  · intro v hv
    exact g1 v (List.drop_subset _ _ hv)
  · intro hpos
    have hne : ((List.range' 24 (closes.length - 24)).foldl
        (validation_step closes s ms coin) {}).results.length ≠ 0 := by
      simpa using Nat.pos_iff_ne_zero.mp hpos
    simp only [if_neg hne, g2]
    exact div_self (by exact_mod_cast hne)

/-- C1 witness: the theorem applied to a concrete 25-point constant series —
`validate_price_predictions` returns a report (structurally, a present
dataset always yields `.ok`), and that report satisfies all three
conclusions. -/
theorem replay_all_records_correct_witness :
    (validate_price_predictions "bitcoin" 30 (some (List.replicate 25 (100:ℚ))) {} []).toOption.map
      (fun r => (r.validation_results.all (fun v => v.accuracy),
                 decide (r.correct_predictions = r.total_predictions),
                 decide (0 < r.total_predictions → r.accuracy_rate = 1)))
      = some (true, true, true) := by
  rcases heq : validate_price_predictions "bitcoin" 30
      (some (List.replicate 25 (100:ℚ))) {} [] with e | r
  · exact absurd heq (by simp [validate_price_predictions])
  · obtain ⟨p1, p2, p3⟩ := replay_all_records_correct "bitcoin" 30
      (List.replicate 25 (100:ℚ)) {} [] r heq
    simp [Except.toOption, List.all_eq_true, p1, p2, p3]
    refine ⟨p1, ?_⟩
    rcases Nat.eq_zero_or_pos r.total_predictions with h | h
    · exact Or.inl h
    · exact Or.inr (p3 h)

/-- C8 counterexample: a collected series of only 10 points does not fail
fast — `validate_price_predictions` returns a normal `BacktestReport` with
zero predictions and `accuracy_rate = 0` (the step loop simply never runs);
there is no `InsufficientHistoryError` anywhere in the code. -/
theorem short_series_no_fail_fast :
    (validate_price_predictions "bitcoin" 30
        (some [1, 2, 3, 4, 5, 6, 7, 8, 9, 10]) {} []).toOption.map
      (fun r => (r.total_predictions, r.correct_predictions, r.accuracy_rate,
                 r.validation_results.length))
      = some (0, 0, 0, 0) := by
  with_unfolding_all rfl

/-- C8 amended: for every collected series with fewer than 24 points the run
is NOT rejected: `validate_price_predictions` normally returns a
`BacktestReport` with `total_predictions = 0`, `correct_predictions = 0`,
`accuracy_rate = 0` and no validation records (the replay range
`range(24, len)` is empty); only a missing (`None`) dataset raises, namely
the generic `ValueError` of the collection step. -/
theorem short_series_yields_empty_report (closes : List ℚ) (coin : String)
    (days : ℕ) (s : MarketSentiment) (ms : List (String × ℚ))
    (hlen : closes.length < 24) :
    ∃ r, validate_price_predictions coin days (some closes) s ms = .ok r
      ∧ r.total_predictions = 0 ∧ r.correct_predictions = 0
      ∧ r.accuracy_rate = 0 ∧ r.validation_results = [] := by
  have h0 : List.range' 24 (closes.length - 24) = [] := by
    have : closes.length - 24 = 0 := by omega
    rw [this]
    rfl
  simp only [validate_price_predictions, h0, List.foldl_nil]
  exact ⟨_, rfl, rfl, rfl, rfl, rfl⟩

/-- C8 witness: the amended claim instantiated at a concrete 3-point series. -/
theorem short_series_yields_empty_report_witness :
    (validate_price_predictions "btc" 7 (some [5, 6, 7]) {} []).toOption.map
      (fun r => (r.total_predictions, r.accuracy_rate)) = some (0, 0) := by
  obtain ⟨r, hr, ht, hc, ha, hv⟩ :=
    short_series_yields_empty_report [5, 6, 7] "btc" 7 {} [] (by norm_num)
  rw [hr]
  simp [Except.toOption, ht, ha]

theorem take_min_length (l : List ℚ) (i : ℕ) : l.take (min i l.length) = l.take i := by
  rcases le_total i l.length with h | h
  · rw [min_eq_left h]
  · rw [min_eq_right h, List.take_length, List.take_of_length_le h]

/-- C10: no-lookahead.  At every replay step `i ≥ 24` the window handed to
the attribution engine, `crypto_data.iloc[i-47:i]`, is an infix of
`(closes.take i).drop (i - 47)` — the series elements at indices in
`[max(0, i-47), i)` — so the engine never observes an element at or after
`i`.  (For `i < 47` the Python negative slice start wraps to `len - 47 + i`,
which still lies in `[0, i)` or yields the empty window.) -/
theorem replay_window_no_lookahead (closes : List ℚ) (i : ℕ) (h24 : 24 ≤ i) :
    (replay_window closes i).IsInfix ((closes.take i).drop (i - 47)) := by
  unfold replay_window py_slice
  have hstop : ¬ ((i : ℤ) < 0) := by omega
  simp only [hstop, if_false]
  have he : (max 0 (min (i : ℤ) (closes.length : ℤ))).toNat = min i closes.length := by
    omega
  split_ifs with hst
  · -- i < 47: the ℕ-truncated left bound is 0, so the target is all of take i
    have h47 : i - 47 = 0 := by omega
    rw [h47, List.drop_zero, he, take_min_length]
    exact (List.drop_suffix _ _).isInfix
  · -- i ≥ 47: the slice start is min (i-47) (length)
    rw [he, take_min_length]
    by_cases hbig : (closes.length : ℤ) < (i : ℤ) - 47
    · have hs : (max 0 (min ((i : ℤ) - 47) (closes.length : ℤ))).toNat = closes.length := by
        omega
      rw [hs]
      have hlen : (closes.take i).length ≤ closes.length := by
        simp [List.length_take]
      rw [List.drop_eq_nil_of_le hlen]
      exact List.nil_infix
    · have hs : (max 0 (min ((i : ℤ) - 47) (closes.length : ℤ))).toNat = i - 47 := by
        omega
      rw [hs]

/-- C10 witness: the theorem applied at step `i = 24` of a 30-point series. -/
theorem replay_window_no_lookahead_witness :
    (replay_window (List.replicate 30 (1:ℚ)) 24).IsInfix
      (((List.replicate 30 (1:ℚ)).take 24).drop (24 - 47)) :=
  replay_window_no_lookahead (List.replicate 30 (1:ℚ)) 24 (by norm_num)

theorem pymin_le_left (a b : ℚ) : pymin a b ≤ a := by
  unfold pymin; split_ifs <;> linarith

theorem pymin_le_right (a b : ℚ) : pymin a b ≤ b := by
  unfold pymin; split_ifs <;> linarith

theorem pymin_nonneg {a b : ℚ} (ha : 0 ≤ a) (hb : 0 ≤ b) : 0 ≤ pymin a b := by
  unfold pymin; split_ifs <;> linarith

theorem pymax_le {a b c : ℚ} (ha : a ≤ c) (hb : b ≤ c) : pymax a b ≤ c := by
  unfold pymax; split_ifs <;> linarith

theorem le_pymax_left (a b : ℚ) : a ≤ pymax a b := by
  unfold pymax; split_ifs <;> linarith

theorem pymax_nonneg_right {a b : ℚ} (hb : 0 ≤ b) : 0 ≤ pymax a b := by
  unfold pymax; split_ifs <;> linarith

theorem sentiment_banded_bounds (s : MarketSentiment) (pc : ℚ) :
    -1 ≤ (sentiment_banded s pc).1 ∧ (sentiment_banded s pc).1 ≤ 1
    ∧ 0 ≤ (sentiment_banded s pc).2.2 ∧ (sentiment_banded s pc).2.2 ≤ 1 := by
  unfold sentiment_banded
  dsimp only
  split_ifs <;> first | norm_num | (exfalso; linarith)

theorem rsi_entries_conf_bounds {ind : TechnicalIndicators} {e : SignalEntry}
    (he : e ∈ rsi_entries ind) : 0 ≤ e.2.1 ∧ e.2.1 ≤ 1 := by
  unfold rsi_entries at he
  cases hr : ind.rsi with
  | none => rw [hr] at he; simp at he
  | some rv =>
    rw [hr] at he
    dsimp only at he
    split_ifs at he <;>
      first
      | (rw [List.mem_singleton] at he; subst he; exact ⟨by norm_num, by norm_num⟩)
      | simp at he

theorem macd_entries_conf_bounds {pd : List ℚ} {ind : TechnicalIndicators}
    {e : SignalEntry} (he : e ∈ macd_entries pd ind) : 0 ≤ e.2.1 ∧ e.2.1 ≤ 1 := by
  unfold macd_entries at he
  cases hm : ind.macd with
  | none => rw [hm] at he; simp at he
  | some mv =>
    cases hs : ind.macd_signal with
    | none => rw [hm, hs] at he; simp at he
    | some sv =>
      rw [hm, hs] at he
      dsimp only at he
      split_ifs at he <;>
        first
        | (rw [List.mem_singleton] at he; subst he; exact ⟨by norm_num, by norm_num⟩)
        | simp at he

theorem sma_entries_conf_bounds {ind : TechnicalIndicators} {e : SignalEntry}
    (he : e ∈ sma_entries ind) : 0 ≤ e.2.1 ∧ e.2.1 ≤ 1 := by
  unfold sma_entries at he
  cases hs : ind.sma_short with
  | none => rw [hs] at he; simp at he
  | some sh =>
    cases hl : ind.sma_long with
    | none => rw [hs, hl] at he; simp at he
    | some lo =>
      rw [hs, hl] at he
      dsimp only at he
      split_ifs at he <;>
        first
        | (rw [List.mem_singleton] at he; subst he; exact ⟨by norm_num, by norm_num⟩)
        | simp at he

theorem bollinger_entries_conf_bounds {cp : ℚ} {ind : TechnicalIndicators}
    {e : SignalEntry} (he : e ∈ bollinger_entries cp ind) : 0 ≤ e.2.1 ∧ e.2.1 ≤ 1 := by
  unfold bollinger_entries at he
  cases hm : ind.boll_middle with
  | none => rw [hm] at he; simp at he
  | some mid =>
    cases hv : ind.boll_var with
    | none => rw [hm, hv] at he; simp at he
    | some v =>
      rw [hm, hv] at he
      dsimp only at he
      split_ifs at he <;>
        first
        | (rw [List.mem_singleton] at he; subst he; exact ⟨by norm_num, by norm_num⟩)
        | simp at he

/-- Every (signal, confidence, reason) triple appended by
`generate_trading_signal` carries a confidence in `[0, 1]` (the literals are
0.8, 0.7, 0.6, 0.5). -/
theorem all_entries_conf_bounds {pd : List ℚ} {cp : ℚ} {ind : TechnicalIndicators}
    {e : SignalEntry}
    (he : e ∈ rsi_entries ind ++ macd_entries pd ind ++ sma_entries ind
      ++ bollinger_entries cp ind) : 0 ≤ e.2.1 ∧ e.2.1 ≤ 1 := by
  rcases List.mem_append.mp he with he | he
  · rcases List.mem_append.mp he with he | he
    · rcases List.mem_append.mp he with he | he
      · exact rsi_entries_conf_bounds he
      · exact macd_entries_conf_bounds he
    · exact sma_entries_conf_bounds he
  · exact bollinger_entries_conf_bounds he

/-- `generate_trading_signal` always reports a confidence in `[0, 1]`:
every voting branch takes `min(mean of a sublist of {0.8,0.7,0.6,0.5}, 1.0)`,
the HOLD branches use 0.5 or 0.0. -/
theorem signal_conf_bounds (pd : List ℚ) (ind : TechnicalIndicators) :
    0 ≤ (generate_trading_signal pd ind).confidence
    ∧ (generate_trading_signal pd ind).confidence ≤ 1 := by
  unfold generate_trading_signal
  cases hl : pd.getLast? with
  | none => norm_num
  | some cp =>
    dsimp only
    have hbuy : ∀ x ∈ (rsi_entries ind ++ macd_entries pd ind ++ sma_entries ind
        ++ bollinger_entries cp ind).filterMap
          (fun e => if e.1 = "BUY" then some e.2.1 else none), 0 ≤ x := by
      intro x hx
      rcases List.mem_filterMap.mp hx with ⟨e, hel, hfe⟩
      split_ifs at hfe
      · cases hfe
        exact (all_entries_conf_bounds hel).1
    have hsell : ∀ x ∈ (rsi_entries ind ++ macd_entries pd ind ++ sma_entries ind
        ++ bollinger_entries cp ind).filterMap
          (fun e => if e.1 = "SELL" then some e.2.1 else none), 0 ≤ x := by
      intro x hx
      rcases List.mem_filterMap.mp hx with ⟨e, hel, hfe⟩
      split_ifs at hfe
      · cases hfe
        exact (all_entries_conf_bounds hel).1
    split_ifs with h1 h2 h3
    · constructor
      · exact pymin_nonneg (by norm_num) (by norm_num)
      · exact pymin_le_right _ _
    · refine ⟨pymin_nonneg (div_nonneg (List.sum_nonneg hbuy) (Nat.cast_nonneg _))
        (by norm_num), pymin_le_right _ _⟩
    · refine ⟨pymin_nonneg (div_nonneg (List.sum_nonneg hsell) (Nat.cast_nonneg _))
        (by norm_num), pymin_le_right _ _⟩
    · constructor
      · exact pymin_nonneg (by norm_num) (by norm_num)
      · exact pymin_le_right _ _

theorem technical_some_bounds {pd : Option (List ℚ)} {pc : ℚ} {f : PriceMovementFactor}
    (h : analyze_technical_factors pd pc = some f) :
    -1 ≤ f.impact_score ∧ f.impact_score ≤ 1
    ∧ 0 ≤ f.confidence ∧ f.confidence ≤ 1 := by
  unfold analyze_technical_factors analyze_technical_factors_core at h
  cases pd with
  | none => simp at h
  | some pdl =>
    by_cases h5 : pdl.length < 5
    · simp [h5] at h
    · simp only [h5] at h
      rcases hr : (analyze_price_data pdl).rsi with _ | rv
      · simp [hr] at h
      · simp only [hr] at h
        simp only [if_false, Bool.false_eq_true] at h
        rw [Option.some_inj] at h
        subst h
        have hsig := signal_conf_bounds pdl (analyze_price_data pdl)
        refine ⟨?_, ?_, ?_, ?_⟩
        · split_ifs <;> norm_num
        · split_ifs <;> norm_num
        · split_ifs <;> first | exact hsig.1 | norm_num
        · split_ifs <;> first | exact hsig.2 | norm_num

theorem sentiment_some_bounds {s : MarketSentiment} {pc : ℚ} {f : PriceMovementFactor}
    (h : analyze_sentiment_factors s pc = some f) :
    -1 ≤ f.impact_score ∧ f.impact_score ≤ 1
    ∧ 0 ≤ f.confidence ∧ f.confidence ≤ 1 := by
  simp only [analyze_sentiment_factors] at h
  split_ifs at h with hg
  injection h with h'
  subst h'
  exact sentiment_banded_bounds s pc

theorem macro_some_bounds {ms : List (String × ℚ)} {pc : ℚ} {f : PriceMovementFactor}
    (h : analyze_macro_factors ms pc = some f) :
    -1 ≤ f.impact_score ∧ f.impact_score ≤ 1
    ∧ 0 ≤ f.confidence ∧ f.confidence ≤ 1 := by
  simp only [analyze_macro_factors] at h
  split_ifs at h with h0 hg
  injection h with h'
  subst h'
  refine ⟨le_pymax_left _ _, pymax_le (by norm_num) (pymin_le_left _ _), ?_, ?_⟩
  · exact pymin_nonneg (by norm_num) (by positivity)
  · exact pymin_le_left _ _

theorem structural_some_bounds {pc : ℚ} {mt : String} {f : PriceMovementFactor}
    (h : analyze_structural_factors pc mt = some f) :
    -1 ≤ f.impact_score ∧ f.impact_score ≤ 1
    ∧ 0 ≤ f.confidence ∧ f.confidence ≤ 1 := by
  unfold analyze_structural_factors at h
  split_ifs at h <;> (injection h with h'; subst h'; norm_num)

/-- C9: for every Factor produced by any of the four factor analyzers, over
all inputs (windows, percent changes, and arbitrary feed values),
`impact_score ∈ [-1, 1]` and `confidence ∈ [0, 1]`. -/
theorem analyzer_outputs_bounded :
    (∀ (pd : Option (List ℚ)) (pc : ℚ) (f : PriceMovementFactor),
      analyze_technical_factors pd pc = some f →
      -1 ≤ f.impact_score ∧ f.impact_score ≤ 1 ∧ 0 ≤ f.confidence ∧ f.confidence ≤ 1)
    ∧ (∀ (s : MarketSentiment) (pc : ℚ) (f : PriceMovementFactor),
      analyze_sentiment_factors s pc = some f →
      -1 ≤ f.impact_score ∧ f.impact_score ≤ 1 ∧ 0 ≤ f.confidence ∧ f.confidence ≤ 1)
    ∧ (∀ (ms : List (String × ℚ)) (pc : ℚ) (f : PriceMovementFactor),
      analyze_macro_factors ms pc = some f →
      -1 ≤ f.impact_score ∧ f.impact_score ≤ 1 ∧ 0 ≤ f.confidence ∧ f.confidence ≤ 1)
    ∧ (∀ (pc : ℚ) (mt : String) (f : PriceMovementFactor),
      analyze_structural_factors pc mt = some f →
      -1 ≤ f.impact_score ∧ f.impact_score ≤ 1 ∧ 0 ≤ f.confidence ∧ f.confidence ≤ 1) :=
  ⟨fun _ _ _ h => technical_some_bounds h,
   fun _ _ _ h => sentiment_some_bounds h,
   fun _ _ _ h => macro_some_bounds h,
   fun _ _ _ h => structural_some_bounds h⟩

/-- C9 witness: each conjunct applied to a concrete input on which the
analyzer does produce a factor. -/
theorem analyzer_outputs_bounded_witness :
    ((analyze_technical_factors (some c2_prices) (3/2)).map (fun f =>
      decide (-1 ≤ f.impact_score ∧ f.impact_score ≤ 1
        ∧ 0 ≤ f.confidence ∧ f.confidence ≤ 1)) = some true)
    ∧ ((analyze_sentiment_factors { fear_greed_index := some 80 } 5).map (fun f =>
      decide (-1 ≤ f.impact_score ∧ f.impact_score ≤ 1
        ∧ 0 ≤ f.confidence ∧ f.confidence ≤ 1)) = some true)
    ∧ ((analyze_macro_factors [("tech_stock_momentum", 1/2)] 5).map (fun f =>
      decide (-1 ≤ f.impact_score ∧ f.impact_score ≤ 1
        ∧ 0 ≤ f.confidence ∧ f.confidence ≤ 1)) = some true)
    ∧ ((analyze_structural_factors 10 "pump").map (fun f =>
      decide (-1 ≤ f.impact_score ∧ f.impact_score ≤ 1
        ∧ 0 ≤ f.confidence ∧ f.confidence ≤ 1)) = some true) := by
  refine ⟨?_, ?_, ?_, ?_⟩
  · rcases heq : analyze_technical_factors (some c2_prices) (3/2) with _ | f
    · have hs : (analyze_technical_factors (some c2_prices) (3/2)).isSome = true := by
        set_option maxRecDepth 100000 in with_unfolding_all rfl
      rw [heq] at hs
      simp at hs
    · simp only [Option.map_some', Option.some.injEq, decide_eq_true_eq]
      exact analyzer_outputs_bounded.1 (some c2_prices) (3/2) f heq
  · rcases heq : analyze_sentiment_factors { fear_greed_index := some 80 } 5 with _ | f
    · have hs : (analyze_sentiment_factors
          { fear_greed_index := some 80 } 5).isSome = true := by
        with_unfolding_all rfl
      rw [heq] at hs
      simp at hs
    · simp only [Option.map_some', Option.some.injEq, decide_eq_true_eq]
      exact analyzer_outputs_bounded.2.1 { fear_greed_index := some 80 } 5 f heq
  · rcases heq : analyze_macro_factors [("tech_stock_momentum", 1/2)] 5 with _ | f
    · have hs : (analyze_macro_factors
          [("tech_stock_momentum", 1/2)] 5).isSome = true := by
        with_unfolding_all rfl
      rw [heq] at hs
      simp at hs
    · simp only [Option.map_some', Option.some.injEq, decide_eq_true_eq]
      exact analyzer_outputs_bounded.2.2.1 [("tech_stock_momentum", 1/2)] 5 f heq
  · rcases heq : analyze_structural_factors 10 "pump" with _ | f
    · have hs : (analyze_structural_factors 10 "pump").isSome = true := by
        with_unfolding_all rfl
      rw [heq] at hs
      simp at hs
    · simp only [Option.map_some', Option.some.injEq, decide_eq_true_eq]
      exact analyzer_outputs_bounded.2.2.2 10 "pump" f heq

end CoinCompass
